import Mathlib

/-
Verification development for the Rust backend of the gleam compiler fork.

Two source files are embedded:
  * `src/compiler-core/src/rust/compile.rs` — the emitter over the typed
    gleam IR (namespaces `Gleam` for the IR data model and `RustBackend`
    for the emitter functions);
  * `src/compiler-core/src/rust/ast.rs` — a standalone demo emitter over
    its own small IR (namespace `Demo`).

Rust's `todo!()` panics abort emission; they are modelled as
`Except.error (RustError.todo site)` where `site` names the panicking
match arm (the real panic message carries the equivalent source
location).  Location/type metadata fields (`location`, `typ`,
`constructor`, …) that no emitter function reads are dropped from the
embedded IR.
-/

namespace Gleam

/- `crate::type_::Type` / `crate::type_::TypeVar`.  In the Rust source a
`Var` holds `Arc<RefCell<TypeVar>>`; the embedding takes an immutable
snapshot, so a `link` chain is finite by construction (the spec's
acyclicity precondition). `App`'s `public`/`module` fields are kept but
never read by the emitter. -/
mutual
inductive Type_ where
  | app (pub_ : Bool) (module : List String) (name : String) (args : List Type_)
  | var (tv : TypeVar)
  | fn (args : List Type_) (retrn : Type_)
  | tuple (elems : List Type_)

inductive TypeVar where
  | link (type_ : Type_)
  | generic (id : Nat)
  | unbound (id : Nat)
end

end Gleam

namespace Gleam

/-- Modelled from the spec: `crate::ast::Arg` (not under `src/`) — "a name
(optional for positional arguments; absent name renders as a placeholder)
and a Type"; `get_variable_name` yields the optional name. -/
structure Arg where
  name : Option String
  type_ : Type_

/-- Modelled from the spec: `crate::ast::BinOp` (not under `src/`) — an
operator tag; the emitter only consults `op.name()`, the operator's
rendered text, so the tag is modelled as carrying that text. -/
structure BinOp where
  name : String

/- `crate::ast::TypedExpr` and `crate::ast::CallArg`, with exactly the
variants matched in `compile_expression`.  Constructors `Str`, `ListE`
and `BinOpE` stand for the source's `String`, `List` and `BinOp`
variants (renamed to avoid clashing with the Lean types of their own
payloads). Payloads of variants that `compile_expression` never reads
(its arm is `todo!()`) are kept only where structural. -/
mutual
inductive TypedExpr where
  | Int (value : String)
  | Float (value : String)
  | Str (value : String)
  | Sequence (expressions : List TypedExpr)
  | Pipeline (expressions : List TypedExpr)
  | Var (name : String)
  | Fn (is_capture : Bool) (args : List Arg) (body : TypedExpr)
  | ListE (elements : List TypedExpr) (tail : Option TypedExpr)
  | Call (f : TypedExpr) (args : List CallArg)
  | BinOpE (name : Gleam.BinOp) (left : TypedExpr) (right : TypedExpr)
  | Assignment (value : TypedExpr)
  | Try (value : TypedExpr) (then_ : TypedExpr)
  | Case (subjects : List TypedExpr)
  | RecordAccess (label : String) (index : Nat) (record : TypedExpr)
  | ModuleSelect (label : String) (module_name : String)
  | Tuple (elems : List TypedExpr)
  | TupleIndex (index : Nat) (tuple : TypedExpr)
  | Todo (label : Option String)
  | BitString
  | RecordUpdate (spread : TypedExpr) (args : List CallArg)
  | Negate (value : TypedExpr)

inductive CallArg where
  | mk (label : Option String) (value : TypedExpr)
end

/-- `crate::ast::Statement` (typed).  Only the `Fn` variant's fields are
read by `compile_statement`; the other variants' arms are `todo!()`, so
their payloads are dropped.  `ForeignFn`/`ForeignType` stand for the
source's external-fn/external-type variants. -/
inductive TypedStatement where
  | Fn (name : String) (arguments : List Arg) (body : TypedExpr)
       (pub_ : Bool) (return_type : Type_) (doc : Option String)
  | TypeAlias
  | CustomType
  | ForeignFn
  | ForeignType
  | Import
  | ModuleConstant

/-- `crate::ast::TypedModule`: the statement list. -/
structure TypedModule where
  statements : List TypedStatement

end Gleam

namespace RustBackend

open Gleam

/-- A Rust `todo!()` panic, tagged with the site (match arm) that
panicked — the real panic message carries the corresponding source
location. -/
inductive RustError where
  | todo (site : String)
deriving DecidableEq, Repr

/- `compile_type` from `compile.rs`, with `compile_type_list` embedding
the source's `args.iter().map(compile_type).collect::<Vec<_>>()` (a
panic in any element aborts the whole map, in order). -/
mutual
def compile_type : Type_ → Except RustError String
  | .app _ _ name args =>
      if args.length == 0 then
        .ok name
      else do
        let rs ← compile_type_list args
        .ok (name ++ "<" ++ String.intercalate ", " rs ++ ">")
  | .var (.link t) => compile_type t
  | .var (.generic id) => .ok ("T" ++ toString id)
  | .var (.unbound id) => .ok ("T" ++ toString id)
  | .fn _ _ => .error (.todo "compile_type: Type::Fn")
  | .tuple _ => .error (.todo "compile_type: Type::Tuple")

def compile_type_list : List Type_ → Except RustError (List String)
  | [] => .ok []
  | t :: ts => do
      let r ← compile_type t
      let rs ← compile_type_list ts
      .ok (r :: rs)
end

/- `find_generics` from `compile.rs`; `find_generics_list` embeds the
source's `args.iter().flat_map(find_generics).collect_vec()`. -/
mutual
def find_generics : Type_ → Except RustError (List Nat)
  | .app _ _ _ args => find_generics_list args
  | .var (.unbound id) => .ok [id]
  | .var (.link t) => find_generics t
  | .var (.generic id) => .ok [id]
  | .fn _ _ => .error (.todo "find_generics: Type::Fn")
  | .tuple _ => .error (.todo "find_generics: Type::Tuple")

def find_generics_list : List Type_ → Except RustError (List Nat)
  | [] => .ok []
  | t :: ts => do
      let r ← find_generics t
      let rs ← find_generics_list ts
      .ok (r ++ rs)
end

/-- The `a.iter().flat_map(|x| find_generics(&x.type_))` part of
`compile_type_args`. -/
def find_generics_args : List Arg → Except RustError (List Nat)
  | [] => .ok []
  | a :: rest => do
      let r ← find_generics a.type_
      let rs ← find_generics_args rest
      .ok (r ++ rs)

/-- `compile_type_args` from `compile.rs`. -/
def compile_type_args (a : List Arg) : Except RustError String := do
  let ids ← find_generics_args a
  let strs := ids.map (fun x => "T" ++ toString x)
  if strs.length == 0 then
    .ok ""
  else
    .ok ("<" ++ String.intercalate ", " strs ++ ">")

/-- `compile_binop` from `compile.rs`: `String::from(op.name())`. -/
def compile_binop (op : Gleam.BinOp) : String :=
  op.name

/-- `compile_public` from `compile.rs`. -/
def compile_public (c : Bool) : String :=
  match c with
  | true => "pub "
  | false => ""

/-- `compile_doc` from `compile.rs`. -/
def compile_doc : Option String → String
  | some d => "// " ++ d ++ "\n"
  | none => ""

/- `compile_expression` and `compile_call_arg` from `compile.rs`, with
`compile_expression_list` embedding the `Sequence` arm's
`.map(compile_expression).collect_vec()` and `compile_call_arg_list` the
`Call` arm's `.map(compile_call_arg).collect::<Vec<_>>()` (a panic in any
element aborts, in order).  Every arm that is `todo!()` in the source
becomes a `RustError.todo` tagged with that arm. -/
mutual
def compile_expression : TypedExpr → Except RustError String
  | .Int value => .ok value
  | .Float _ => .error (.todo "compile_expression: Float")
  | .Str _ => .error (.todo "compile_expression: String")
  | .Sequence expressions => do
      let body ← compile_expression_list expressions
      .ok (String.intercalate ";\n" body)
  | .Pipeline _ => .error (.todo "compile_expression: Pipeline")
  | .Var name => .ok name
  | .Fn _ _ _ => .error (.todo "compile_expression: Fn")
  | .ListE _ _ => .error (.todo "compile_expression: List")
  | .Call f args => do
      let f ← compile_expression f
      let args ← compile_call_arg_list args
      .ok (f ++ "(" ++ String.intercalate ", " args ++ ")")
  | .BinOpE name left right => do
      let name := compile_binop name
      let left ← compile_expression left
      let right ← compile_expression right
      .ok ("(" ++ left ++ " " ++ name ++ " " ++ right ++ ")")
  | .Assignment _ => .error (.todo "compile_expression: Assignment")
  | .Try _ _ => .error (.todo "compile_expression: Try")
  | .Case _ => .error (.todo "compile_expression: Case")
  | .RecordAccess _ _ _ => .error (.todo "compile_expression: RecordAccess")
  | .ModuleSelect _ _ => .error (.todo "compile_expression: ModuleSelect")
  | .Tuple _ => .error (.todo "compile_expression: Tuple")
  | .TupleIndex _ _ => .error (.todo "compile_expression: TupleIndex")
  | .Todo _ => .error (.todo "compile_expression: Todo")
  | .BitString => .error (.todo "compile_expression: BitString")
  | .RecordUpdate _ _ => .error (.todo "compile_expression: RecordUpdate")
  | .Negate _ => .error (.todo "compile_expression: Negate")

def compile_call_arg : CallArg → Except RustError String
  | .mk _ value => compile_expression value

def compile_expression_list : List TypedExpr → Except RustError (List String)
  | [] => .ok []
  | e :: es => do
      let r ← compile_expression e
      let rs ← compile_expression_list es
      .ok (r :: rs)

def compile_call_arg_list : List CallArg → Except RustError (List String)
  | [] => .ok []
  | a :: rest => do
      let r ← compile_call_arg a
      let rs ← compile_call_arg_list rest
      .ok (r :: rs)
end

/-- `compile_argument` from `compile.rs`:
`a.get_variable_name().unwrap_or("_")` then `name: typ`. -/
def compile_argument (a : Arg) : Except RustError String := do
  let typ ← compile_type a.type_
  .ok ((a.name.getD "_") ++ ": " ++ typ)

/-- The `.map(compile_argument).collect::<Vec<_>>()` part of
`compile_arguments`. -/
def compile_argument_list : List Arg → Except RustError (List String)
  | [] => .ok []
  | a :: rest => do
      let r ← compile_argument a
      let rs ← compile_argument_list rest
      .ok (r :: rs)

/-- `compile_arguments` from `compile.rs`. -/
def compile_arguments (a : List Arg) : Except RustError String := do
  let parts ← compile_argument_list a
  .ok (String.intercalate ", " parts)

/-- `compile_statement` from `compile.rs`: the `Fn` arm renders
`{doc}{public}fn {name}{type_args}({arguments}) -> {return_type} {\n{body}\n}`
(sub-parts computed in source order); every other arm is `todo!()`. -/
def compile_statement : TypedStatement → Except RustError String
  | .Fn name arguments body pub_ return_type doc => do
      let doc := compile_doc doc
      let pub_ := compile_public pub_
      let type_args ← compile_type_args arguments
      let args ← compile_arguments arguments
      let return_type ← compile_type return_type
      let body ← compile_expression body
      .ok (doc ++ pub_ ++ "fn " ++ name ++ type_args ++ "(" ++ args ++ ") -> "
            ++ return_type ++ " \x7b\n" ++ body ++ "\n\x7d")
  | .TypeAlias => .error (.todo "compile_statement: TypeAlias")
  | .CustomType => .error (.todo "compile_statement: CustomType")
  | .ForeignFn => .error (.todo "compile_statement: ExternalFn")
  | .ForeignType => .error (.todo "compile_statement: ExternalType")
  | .Import => .error (.todo "compile_statement: Import")
  | .ModuleConstant => .error (.todo "compile_statement: ModuleConstant")

/-- The `.map(compile_statement).collect_vec()` part of `compile`. -/
def compile_statement_list : List TypedStatement → Except RustError (List String)
  | [] => .ok []
  | s :: rest => do
      let r ← compile_statement s
      let rs ← compile_statement_list rest
      .ok (r :: rs)

/-- `compile` from `compile.rs`: render every statement and join with a
blank line. -/
def compile (m : TypedModule) : Except RustError String := do
  let parts ← compile_statement_list m.statements
  .ok (String.intercalate "\n\n" parts)

/-- A chain of `n` nested `Link` forwardings ending at `t` — the shape
whose acyclicity the upstream type checker guarantees. -/
def link_chain : Nat → Type_ → Type_
  | 0, t => t
  | n + 1, t => .var (.link (link_chain n t))

end RustBackend

namespace Demo

/-- `Typ` from `ast.rs`: a name and a list of type arguments. -/
inductive Typ where
  | mk (name : String) (body : List Typ)

/-- `BinOp` from `ast.rs`. -/
inductive BinOp where
  | add
  | sub
  | mul
  | div

/- `Pattern` / `PatternField` from `ast.rs`. -/
mutual
inductive Pattern where
  | wildcard
  | integer (value : Int)
  | var (name : String)
  | struct (name : String) (fields : List PatternField)

inductive PatternField where
  | mk (name : String) (pattern : Pattern)
end

/- `Expression`, `MatchBranch` and `ExpressionField` from `ast.rs`. -/
mutual
inductive Expression where
  | integer (value : Int)
  | var (name : String)
  | binop (op : BinOp) (left : Expression) (right : Expression)
  | matchE (on_ : Expression) (branches : List MatchBranch)
  | call (name : String) (arguments : List Expression)
  | construct (name : String) (fields : List ExpressionField)

inductive MatchBranch where
  | mk (pattern : Pattern) (body : List Expression)

inductive ExpressionField where
  | mk (name : String) (expression : Expression)
end

/-- `compile_op` from `ast.rs`. -/
def compile_op : BinOp → String
  | .add => "+"
  | .sub => "-"
  | .mul => "*"
  | .div => "/"

/- `compile_pattern` / `compile_pattern_field` from `ast.rs`;
`compile_pattern_field_list` embeds the `Struct` arm's
`.map(compile_pattern_field).collect::<Vec<String>>()`. -/
mutual
def compile_pattern : Pattern → String
  | .wildcard => "_"
  | .integer value => toString value ++ "i64"
  | .var name => name
  | .struct name fields =>
      name ++ " \x7b" ++ String.intercalate ", " (compile_pattern_field_list fields) ++ "\x7d"

def compile_pattern_field : PatternField → String
  | .mk name pattern => name ++ ": " ++ compile_pattern pattern

def compile_pattern_field_list : List PatternField → List String
  | [] => []
  | f :: fs => compile_pattern_field f :: compile_pattern_field_list fs
end

/- `compile_expression`, `compile_expression_field`, `compile_branch` and
`compile_expressions` from `ast.rs`.  `compile_expressions` is the
source's `body.iter().map(compile_expression).collect::<Vec<_>>()`;
`compile_branch_list` embeds the `Match` arm's
`.map(compile_branch).collect::<String>()` (string concatenation);
`compile_expression_field_list` the `Construct` arm's map. -/
mutual
def compile_expression : Expression → String
  | .binop op left right =>
      "(" ++ compile_expression left ++ " " ++ compile_op op ++ " "
          ++ compile_expression right ++ ")"
  | .integer value => toString value
  | .var name => name ++ ".clone()"
  | .call name arguments =>
      name ++ "(" ++ String.intercalate ", " (compile_expressions arguments) ++ ")"
  | .matchE on_ branches =>
      compile_expression on_ ++ " \x7b" ++ compile_branch_list branches ++ "\x7d"
  | .construct name fields =>
      name ++ " \x7b" ++ String.intercalate "," (compile_expression_field_list fields) ++ "\x7d"

def compile_branch : MatchBranch → String
  | .mk pattern body =>
      compile_pattern pattern ++ " => \x7b\n"
        ++ String.intercalate ";\n" (compile_expressions body) ++ "\n\x7d"

def compile_branch_list : List MatchBranch → String
  | [] => ""
  | b :: bs => compile_branch b ++ compile_branch_list bs

def compile_expression_field : ExpressionField → String
  | .mk name expression => name ++ ": " ++ compile_expression expression

def compile_expression_field_list : List ExpressionField → List String
  | [] => []
  | f :: fs => compile_expression_field f :: compile_expression_field_list fs

def compile_expressions : List Expression → List String
  | [] => []
  | e :: es => compile_expression e :: compile_expressions es
end

/- `compile_typ` from `ast.rs`: zero type arguments renders the bare
name; otherwise `name<arg1, arg2, …>` with `compile_typ_list` embedding
the source's `.map(compile_typ).collect::<Vec<String>>()`. -/
mutual
def compile_typ : Typ → String
  | .mk name body =>
      if body.length == 0 then
        name
      else
        name ++ "<" ++ String.intercalate ", " (compile_typ_list body) ++ ">"

def compile_typ_list : List Typ → List String
  | [] => []
  | t :: ts => compile_typ t :: compile_typ_list ts
end

end Demo

/- ------------------------------------------------------------------ -/
/- Helper lemmas                                                      -/
/- ------------------------------------------------------------------ -/

theorem aux_compile_type_list_eq_mapM (l : List Gleam.Type_) :
    RustBackend.compile_type_list l = l.mapM RustBackend.compile_type := by
  induction l with
  | nil => rfl
  | cons t ts ih => rw [List.mapM_cons, RustBackend.compile_type_list, ih]; rfl

theorem aux_compile_call_arg_list_eq_mapM (l : List Gleam.CallArg) :
    RustBackend.compile_call_arg_list l = l.mapM RustBackend.compile_call_arg := by
  induction l with
  | nil => rfl
  | cons a rest ih => rw [List.mapM_cons, RustBackend.compile_call_arg_list, ih]; rfl

theorem aux_compile_typ_list_eq_map (l : List Demo.Typ) :
    Demo.compile_typ_list l = l.map Demo.compile_typ := by
  induction l with
  | nil => rfl
  | cons t ts ih => rw [List.map_cons, Demo.compile_typ_list, ih]

theorem aux_pattern_field_list_eq_map (l : List Demo.PatternField) :
    Demo.compile_pattern_field_list l = l.map Demo.compile_pattern_field := by
  induction l with
  | nil => rfl
  | cons f fs ih => rw [List.map_cons, Demo.compile_pattern_field_list, ih]

theorem aux_expression_field_list_eq_map (l : List Demo.ExpressionField) :
    Demo.compile_expression_field_list l = l.map Demo.compile_expression_field := by
  induction l with
  | nil => rfl
  | cons f fs ih => rw [List.map_cons, Demo.compile_expression_field_list, ih]

/- ------------------------------------------------------------------ -/
/- Claims                                                             -/
/- ------------------------------------------------------------------ -/

/-- Claim C1 (code evaluation at the failing input): the generic-parameter
collection `compile_type_args` / `find_generics` does NOT deduplicate —
three arguments whose types reference the identities ?1, ?1, ?2 yield the
identity list `[1, 1, 2]` and the rendered clause `<T1, T1, T2>`, whereas
the claim demands each distinct identity exactly once (`[1, 2]`,
`<T1, T2>`). -/
theorem claim_C1_no_dedup_eval :
    RustBackend.find_generics_args
        [⟨some "a", .var (.unbound 1)⟩, ⟨some "b", .var (.unbound 1)⟩,
         ⟨some "c", .var (.unbound 2)⟩]
      = .ok [1, 1, 2]
  ∧ RustBackend.compile_type_args
        [⟨some "a", .var (.unbound 1)⟩, ⟨some "b", .var (.unbound 1)⟩,
         ⟨some "c", .var (.unbound 2)⟩]
      = .ok "<T1, T1, T2>"
  ∧ ([1, 1, 2] : List Nat) ≠ [1, 2] :=
  ⟨rfl, rfl, by decide⟩

/-- Claim C3 (code evaluation at the failing input): `compile_type` is NOT
total over the Type union — the `Fn` and `Tuple` variants hit `todo!()`
(modelled as a `RustError.todo` abort) instead of producing output
text. -/
theorem claim_C3_fn_tuple_unrenderable :
    RustBackend.compile_type (.fn [] (.app true [] "Int" []))
      = .error (.todo "compile_type: Type::Fn")
  ∧ RustBackend.compile_type (.tuple [])
      = .error (.todo "compile_type: Type::Tuple") :=
  ⟨rfl, rfl⟩

/-- Claim C4: for every Type (Linked chains are acyclic by construction in
the embedding, which is exactly the upstream type checker's guarantee),
`compile_type` terminates — it is a total, structurally recursive
function — and a Linked variable always renders exactly as its
transitively dereferenced target: wrapping any type in `n` nested `Link`
forwardings never changes the output, so no raw identity marker is ever
emitted for a Linked variable, only for the Generic/Unbound variable or
concrete type at the end of the chain. -/
theorem claim_C4_link_dereference :
    ∀ (n : Nat) (t : Gleam.Type_),
      RustBackend.compile_type (RustBackend.link_chain n t)
        = RustBackend.compile_type t := by
  intro n t
  induction n with
  | zero => rfl
  | succ k ih => simp [RustBackend.link_chain, RustBackend.compile_type, ih]

/-- Claim C5: for every Generic or Unbound type variable, `compile_type`
emits the deterministic synthetic name `"T" ++ id`, so equal identities
always render to the same name, and an Unbound variable renders
identically to a Generic variable with the same id. -/
theorem claim_C5_synthetic_names :
    ∀ id : Nat,
      RustBackend.compile_type (.var (.generic id)) = .ok ("T" ++ toString id)
    ∧ RustBackend.compile_type (.var (.unbound id)) = .ok ("T" ++ toString id)
    ∧ RustBackend.compile_type (.var (.unbound id))
        = RustBackend.compile_type (.var (.generic id)) := by
  intro id
  exact ⟨rfl, rfl, rfl⟩

/-- Claim C9 (code evaluation at the failing input): in `compile.rs` a
`Var` expression renders as the bare name — `x`, a move, not the
value-duplicating `x.clone()` the claim requires (the arm's own comment
says "TODO insert clones") — while the demo emitter in `ast.rs` does
render the duplicating `x.clone()`. -/
theorem claim_C9_var_rendering_eval :
    RustBackend.compile_expression (.Var "x") = .ok "x"
  ∧ Demo.compile_expression (.var "x") = "x.clone()"
  ∧ ("x" : String) ≠ "x.clone()" :=
  ⟨rfl, rfl, by decide⟩

theorem aux_bind_ok {ε α β : Type} (a : α) (f : α → Except ε β) :
    (Except.ok a >>= f) = f a := rfl

theorem aux_bind_error {ε α β : Type} (e : ε) (f : α → Except ε β) :
    ((Except.error e : Except ε α) >>= f) = Except.error e := rfl

theorem aux_statement_body_error
    (name : String) (arguments : List Gleam.Arg) (body : Gleam.TypedExpr)
    (p : Bool) (ret : Gleam.Type_) (doc : Option String) (err : RustBackend.RustError)
    (hbody : RustBackend.compile_expression body = .error err) :
    ∀ s, RustBackend.compile_statement (.Fn name arguments body p ret doc) ≠ .ok s := by
  intro s hok
  simp only [RustBackend.compile_statement] at hok
  cases h1 : RustBackend.compile_type_args arguments with
  | error e => simp [h1, aux_bind_error] at hok
  | ok ta =>
    simp only [h1, aux_bind_ok] at hok
    cases h2 : RustBackend.compile_arguments arguments with
    | error e => simp [h2, aux_bind_error] at hok
    | ok ar =>
      simp only [h2, aux_bind_ok] at hok
      cases h3 : RustBackend.compile_type ret with
      | error e => simp [h3, aux_bind_error] at hok
      | ok rt =>
        simp only [h3, aux_bind_ok] at hok
        simp [hbody, aux_bind_error] at hok

theorem aux_module_single_error
    (name : String) (arguments : List Gleam.Arg) (body : Gleam.TypedExpr)
    (p : Bool) (ret : Gleam.Type_) (doc : Option String) (err : RustBackend.RustError)
    (hbody : RustBackend.compile_expression body = .error err) :
    ∀ s, RustBackend.compile ⟨[.Fn name arguments body p ret doc]⟩ ≠ .ok s := by
  intro s hok
  simp only [RustBackend.compile, RustBackend.compile_statement_list] at hok
  cases hst : RustBackend.compile_statement (.Fn name arguments body p ret doc) with
  | error e => simp [hst, aux_bind_error] at hok
  | ok out => exact aux_statement_body_error name arguments body p ret doc err hbody out hst

/-- Claim C2: every Expression variant with no implemented rendering rule
(Float, String, Pipeline, Fn, List, Assignment, Try, Case, RecordAccess,
ModuleSelect, Tuple, TupleIndex, Todo, BitString, RecordUpdate, Negate)
makes `compile_expression` abort with a `todo` condition tagged with the
offending variant's match arm, and a module whose function body contains
such an expression produces no output text at all (the final conjunct:
whenever the body aborts, `compile` never returns an `ok` result). -/
theorem claim_C2_unsupported_variants_abort :
    ((∀ v, RustBackend.compile_expression (.Float v)
        = .error (.todo "compile_expression: Float"))
  ∧ (∀ v, RustBackend.compile_expression (.Str v)
        = .error (.todo "compile_expression: String"))
  ∧ (∀ es, RustBackend.compile_expression (.Pipeline es)
        = .error (.todo "compile_expression: Pipeline"))
  ∧ (∀ c a b, RustBackend.compile_expression (.Fn c a b)
        = .error (.todo "compile_expression: Fn"))
  ∧ (∀ es t, RustBackend.compile_expression (.ListE es t)
        = .error (.todo "compile_expression: List"))
  ∧ (∀ v, RustBackend.compile_expression (.Assignment v)
        = .error (.todo "compile_expression: Assignment"))
  ∧ (∀ v t, RustBackend.compile_expression (.Try v t)
        = .error (.todo "compile_expression: Try"))
  ∧ (∀ s, RustBackend.compile_expression (.Case s)
        = .error (.todo "compile_expression: Case"))
  ∧ (∀ l i r, RustBackend.compile_expression (.RecordAccess l i r)
        = .error (.todo "compile_expression: RecordAccess"))
  ∧ (∀ l m, RustBackend.compile_expression (.ModuleSelect l m)
        = .error (.todo "compile_expression: ModuleSelect"))
  ∧ (∀ es, RustBackend.compile_expression (.Tuple es)
        = .error (.todo "compile_expression: Tuple"))
  ∧ (∀ i t, RustBackend.compile_expression (.TupleIndex i t)
        = .error (.todo "compile_expression: TupleIndex"))
  ∧ (∀ l, RustBackend.compile_expression (.Todo l)
        = .error (.todo "compile_expression: Todo"))
  ∧ (RustBackend.compile_expression .BitString
        = .error (.todo "compile_expression: BitString"))
  ∧ (∀ s a, RustBackend.compile_expression (.RecordUpdate s a)
        = .error (.todo "compile_expression: RecordUpdate"))
  ∧ (∀ v, RustBackend.compile_expression (.Negate v)
        = .error (.todo "compile_expression: Negate")))
  ∧ (∀ (name : String) (arguments : List Gleam.Arg) (body : Gleam.TypedExpr)
        (p : Bool) (ret : Gleam.Type_) (doc : Option String)
        (err : RustBackend.RustError),
        RustBackend.compile_expression body = .error err →
        ∀ s, RustBackend.compile ⟨[.Fn name arguments body p ret doc]⟩ ≠ .ok s) := by
  constructor
  · exact ⟨fun _ => rfl, fun _ => rfl, fun _ => rfl, fun _ _ _ => rfl,
      fun _ _ => rfl, fun _ => rfl, fun _ _ => rfl, fun _ => rfl,
      fun _ _ _ => rfl, fun _ _ => rfl, fun _ => rfl, fun _ _ => rfl,
      fun _ => rfl, rfl, fun _ _ => rfl, fun _ => rfl⟩
  · exact fun name arguments body p ret doc err hbody =>
      aux_module_single_error name arguments body p ret doc err hbody

/-- Claim C2 witness: a module whose single function's body is the
unsupported `Float` literal aborts — its compilation is not `ok`. -/
theorem claim_C2_witness :
    RustBackend.compile
        ⟨[.Fn "main" [] (.Float "1.0") true (.app true [] "Int" []) none]⟩
      ≠ .ok "" :=
  claim_C2_unsupported_variants_abort.2 "main" [] (.Float "1.0") true
    (.app true [] "Int" []) none (.todo "compile_expression: Float") rfl ""

/-- Claim C6: an Applied type with zero arguments renders as its name
verbatim; with one or more arguments it renders as the name followed by
the angle-bracketed, comma-joined recursively rendered arguments, in the
given order — both for `compile_type` in `compile.rs` and for
`compile_typ` in `ast.rs`. -/
theorem claim_C6_applied_type_rendering :
    (∀ (p : Bool) (m : List String) (name : String),
        RustBackend.compile_type (.app p m name []) = .ok name)
  ∧ (∀ (p : Bool) (m : List String) (name : String)
        (args : List Gleam.Type_) (rs : List String),
        args ≠ [] →
        args.mapM RustBackend.compile_type = .ok rs →
        RustBackend.compile_type (.app p m name args)
          = .ok (name ++ "<" ++ String.intercalate ", " rs ++ ">"))
  ∧ (∀ name : String, Demo.compile_typ (.mk name []) = name)
  ∧ (∀ (name : String) (body : List Demo.Typ),
        body ≠ [] →
        Demo.compile_typ (.mk name body)
          = name ++ "<" ++ String.intercalate ", " (body.map Demo.compile_typ) ++ ">") := by
  refine ⟨fun _ _ _ => rfl, ?_, fun _ => rfl, ?_⟩
  · intro p m name args rs hne h
    cases args with
    | nil => exact absurd rfl hne
    | cons a as =>
      rw [show RustBackend.compile_type (.app p m name (a :: as)) = (do
          let rs ← RustBackend.compile_type_list (a :: as)
          Except.ok (name ++ "<" ++ String.intercalate ", " rs ++ ">")) from rfl]
      rw [aux_compile_type_list_eq_mapM, h]
      rfl
  · intro name body hne
    cases body with
    | nil => exact absurd rfl hne
    | cons b bs =>
      rw [show Demo.compile_typ (.mk name (b :: bs))
          = name ++ "<" ++ String.intercalate ", "
              (Demo.compile_typ_list (b :: bs)) ++ ">" from rfl]
      rw [aux_compile_typ_list_eq_map]

/-- Claim C6 witness: `Option` applied to the generic variable 0 renders
as `Option<T0>`, and the demo renderer sends `Rc<Int>`-shaped input to
`Rc<Int>`. -/
theorem claim_C6_witness :
    RustBackend.compile_type (.app true [] "Option" [.var (.generic 0)])
      = .ok "Option<T0>"
  ∧ Demo.compile_typ (.mk "Rc" [.mk "Int" []]) = "Rc<Int>" := by
  constructor
  · exact (claim_C6_applied_type_rendering.2.1 true [] "Option"
      [.var (.generic 0)] ["T0"] (List.cons_ne_nil _ _) rfl).trans
      (congrArg Except.ok (by decide))
  · exact (claim_C6_applied_type_rendering.2.2.2 "Rc" [.mk "Int" []]
      (List.cons_ne_nil _ _)).trans (by decide)

/-- Claim C7: every binary operation renders fully parenthesized as
`(left OP right)` — in `compile.rs` for any operand renderings and any
operator tag, in `ast.rs` unconditionally — and the concrete expression
`x + 1` renders as `(x + 1)`. -/
theorem claim_C7_binop_parenthesised :
    (∀ (op : Gleam.BinOp) (l r : Gleam.TypedExpr) (ls rs : String),
        RustBackend.compile_expression l = .ok ls →
        RustBackend.compile_expression r = .ok rs →
        RustBackend.compile_expression (.BinOpE op l r)
          = .ok ("(" ++ ls ++ " " ++ RustBackend.compile_binop op ++ " " ++ rs ++ ")"))
  ∧ (∀ (op : Demo.BinOp) (l r : Demo.Expression),
        Demo.compile_expression (.binop op l r)
          = "(" ++ Demo.compile_expression l ++ " " ++ Demo.compile_op op ++ " "
              ++ Demo.compile_expression r ++ ")")
  ∧ RustBackend.compile_expression (.BinOpE ⟨"+"⟩ (.Var "x") (.Int "1"))
      = .ok "(x + 1)" := by
  refine ⟨?_, fun _ _ _ => rfl, rfl⟩
  intro op l r ls rs h1 h2
  simp only [RustBackend.compile_expression, h1, h2, aux_bind_ok]

/-- Claim C7 witness: the first component applied to the concrete
operands `y` and `2` with the `+` operator gives `(y + 2)`. -/
theorem claim_C7_witness :
    RustBackend.compile_expression (.BinOpE ⟨"+"⟩ (.Var "y") (.Int "2"))
      = .ok "(y + 2)" :=
  (claim_C7_binop_parenthesised.1 ⟨"+"⟩ (.Var "y") (.Int "2") "y" "2" rfl rfl).trans
    (congrArg Except.ok (by decide))

/-- Claim C8: struct-destructure patterns and Construct expressions both
render their fields in exactly the IR-given order (the renderers never
consult a constructor declaration, so no reordering can occur):
generally the rendered field list is the in-order map of the field
renderer, and concretely `Point { y: b, x: a }` emits `y` before `x`
while constructing with `[x: 1, y: 2]` emits `x` before `y`. -/
theorem claim_C8_field_order_preserved :
    (∀ (name : String) (fields : List Demo.PatternField),
        Demo.compile_pattern (.struct name fields)
          = name ++ " \x7b" ++ String.intercalate ", "
              (fields.map Demo.compile_pattern_field) ++ "\x7d")
  ∧ (∀ (name : String) (fields : List Demo.ExpressionField),
        Demo.compile_expression (.construct name fields)
          = name ++ " \x7b" ++ String.intercalate ","
              (fields.map Demo.compile_expression_field) ++ "\x7d")
  ∧ Demo.compile_pattern (.struct "Point" [.mk "y" (.var "b"), .mk "x" (.var "a")])
      = "Point \x7by: b, x: a\x7d"
  ∧ Demo.compile_expression
        (.construct "Point" [.mk "x" (.integer 1), .mk "y" (.integer 2)])
      = "Point \x7bx: 1,y: 2\x7d" := by
  refine ⟨?_, ?_, rfl, rfl⟩
  · intro name fields
    rw [show Demo.compile_pattern (.struct name fields)
        = name ++ " \x7b" ++ String.intercalate ", "
            (Demo.compile_pattern_field_list fields) ++ "\x7d" from rfl]
    rw [aux_pattern_field_list_eq_map]
  · intro name fields
    rw [show Demo.compile_expression (.construct name fields)
        = name ++ " \x7b" ++ String.intercalate ","
            (Demo.compile_expression_field_list fields) ++ "\x7d" from rfl]
    rw [aux_expression_field_list_eq_map]

/-- Claim C10: a call argument renders as exactly the rendering of its
value expression — its label (present or not) never appears in the
output — and a Call renders its arguments in the IR-given order,
comma-joined after the rendered callee. -/
theorem claim_C10_call_args_rendering :
    (∀ (label : Option String) (value : Gleam.TypedExpr),
        RustBackend.compile_call_arg (.mk label value)
          = RustBackend.compile_expression value)
  ∧ (∀ (f : Gleam.TypedExpr) (args : List Gleam.CallArg)
        (fs : String) (rs : List String),
        RustBackend.compile_expression f = .ok fs →
        args.mapM RustBackend.compile_call_arg = .ok rs →
        RustBackend.compile_expression (.Call f args)
          = .ok (fs ++ "(" ++ String.intercalate ", " rs ++ ")")) := by
  refine ⟨fun _ _ => rfl, ?_⟩
  intro f args fs rs h1 h2
  simp only [RustBackend.compile_expression, h1,
    aux_compile_call_arg_list_eq_mapM, h2, aux_bind_ok]

/-- Claim C10 witness: a call with a labelled first argument and an
unlabelled second renders as `f(1, x)` — the label `lab` is absent and
the order is preserved. -/
theorem claim_C10_witness :
    RustBackend.compile_expression
        (.Call (.Var "f") [.mk (some "lab") (.Int "1"), .mk none (.Var "x")])
      = .ok "f(1, x)" :=
  (claim_C10_call_args_rendering.2 (.Var "f")
      [.mk (some "lab") (.Int "1"), .mk none (.Var "x")] "f" ["1", "x"] rfl rfl).trans
    (congrArg Except.ok (by decide))
